import Mathlib

/-!
Verification development for `scripts/verify-pdf.py`: the invoice
text-acquisition / field-extraction pipeline and the reconciliation engine.

Texts are modelled as `List Char`.  The regular expressions of the source are
embedded through a small backtracking engine (`RE`, `mtch`, `searchG`,
`findall`) that reproduces the semantics of Python's `re` module for the
constructs the source uses: ordered alternation, greedy repetition of
character classes with backtracking, a single capture group per pattern,
leftmost-first search, and non-overlapping `findall`.  All literal characters
occurring in the source's patterns are compared case-insensitively: every
pattern containing a cased letter is compiled with `re.IGNORECASE` in the
source, and the remaining patterns contain no cased literal at all.
-/

namespace VerifyPdf

abbrev Str := List Char

/-- Python `\s` (ASCII range, which covers all texts considered here). -/
def isSpaceC (c : Char) : Bool :=
  c = ' ' || c = '\t' || c = '\n' || c = '\r' || c = '\x0b' || c = '\x0c'

/-- Python `\w` (ASCII range). -/
def isWordC (c : Char) : Bool := c.isAlphanum || c = '_'

/-- The class `[A-Z0-9]` under `re.IGNORECASE` (ASCII range). -/
def isAlnumC (c : Char) : Bool := c.isAlphanum

/-- The class `[-A-Z0-9]` under `re.IGNORECASE` (ASCII range). -/
def isDashAlnumC (c : Char) : Bool := c = '-' || c.isAlphanum

/-- The class `[:\s]`. -/
def isColonSpaceC (c : Char) : Bool := c = ':' || isSpaceC c

/-- The class `[\d,]`. -/
def isDigitCommaC (c : Char) : Bool := c.isDigit || c = ','

/-- The slash-or-dash class of the date patterns. -/
def isSlashDashC (c : Char) : Bool := c = '/' || c = '-'

/-- Case-insensitive character comparison, used for pattern literals. -/
def ceq (a b : Char) : Bool := a.toLower = b.toLower

/-- Regular-expression syntax covering the constructs used by the source:
literals, single-character classes, greedy bounded/unbounded repetition of a
class, concatenation, ordered alternation, and one capture group. -/
inductive RE where
  | lit : Str → RE
  | cls : (Char → Bool) → RE
  | rep : (Char → Bool) → Nat → Option Nat → RE
  | seq : RE → RE → RE
  | alt : RE → RE → RE
  | grp : RE → RE

/-- Length of the maximal prefix of `s` made of characters of class `p`. -/
def runLen (p : Char → Bool) : Str → Nat
  | [] => 0
  | c :: t => if p c then runLen p t + 1 else 0

/-- Consume a literal (case-insensitively), returning the rest on success. -/
def dropLit : Str → Str → Option Str
  | [], s => some s
  | _ :: _, [] => none
  | l :: ls, c :: cs => if ceq l c then dropLit ls cs else none

/-- Remainders after a greedy repetition of class `p` with multiplicity
between `lo` and `hi` (unbounded when `hi = none`), longest-first — the
backtracking preference order of a greedy quantifier. -/
def repRests (p : Char → Bool) (lo : Nat) (hi : Option Nat) (s : Str) : List Str :=
  let m := match hi with
    | none => runLen p s
    | some h => min h (runLen p s)
  if m < lo then []
  else (List.range (m - lo + 1)).map (fun i => s.drop (m - i))

/-- All ways to match `re` at the start of `s`, in backtracking preference
order.  Each result is the remaining suffix together with the capture of the
(single) group, when the group participated in the match. -/
def mtch : RE → Str → List (Str × Option Str)
  | .lit l, s =>
    match dropLit l s with
    | some r => [(r, none)]
    | none => []
  | .cls p, s =>
    match s with
    | c :: t => if p c then [(t, none)] else []
    | [] => []
  | .rep p lo hi, s => (repRests p lo hi s).map (fun r => (r, none))
  | .seq a b, s =>
    (mtch a s).flatMap (fun x =>
      (mtch b x.1).map (fun y => (y.1, match x.2 with
        | some c => some c
        | none => y.2)))
  | .alt a b, s => mtch a s ++ mtch b s
  | .grp a, s =>
    (mtch a s).map (fun x => (x.1, some (s.take (s.length - x.1.length))))

/-- First (preferred) match of `re` anchored at the start of `s`:
the number of consumed characters and the capture of group 1. -/
def matchHere (re : RE) (s : Str) : Option (Nat × Option Str) :=
  match mtch re s with
  | x :: _ => some (s.length - x.1.length, x.2)
  | [] => none

/-- Python `re.search(pattern, text).group(1)`: leftmost match wins, and the
group of the patterns embedded here always participates in a match. -/
def searchG (re : RE) : Str → Option Str
  | [] =>
    match matchHere re [] with
    | some x => some (x.2.getD [])
    | none => none
  | c :: t =>
    match matchHere re (c :: t) with
    | some x => some (x.2.getD [])
    | none => searchG re t

/-- Helper of `findall` with explicit fuel (each step consumes at least one
character of the text, so `length + 1` fuel suffices). -/
def findallAux (re : RE) : Nat → Str → List Str
  | 0, _ => []
  | fuel + 1, s =>
    match matchHere re s, s with
    | some x, _ :: _ => x.2.getD [] :: findallAux re fuel (s.drop (max x.1 1))
    | some x, [] => [x.2.getD []]
    | none, _ :: t => findallAux re fuel t
    | none, [] => []

/-- Python `re.findall(pattern, text)` for a single-group pattern:
non-overlapping matches from the left, returning the group captures. -/
def findall (re : RE) (s : Str) : List Str := findallAux re (s.length + 1) s

/-- Ordered alternation of a non-empty list of branches. -/
def alts : List RE → RE
  | [] => .lit []
  | [r] => r
  | r :: rs => .alt r (alts rs)

/-- Concatenation of a list of regular expressions. -/
def seqs : List RE → RE
  | [] => .lit []
  | [r] => r
  | r :: rs => .seq r (seqs rs)

/-- A literal regular expression from a string. -/
def lt (s : String) : RE := .lit s.toList

/-- Greedy `?` on a single character. -/
def optC (c : Char) : RE := .rep (fun x => ceq x c) 0 (some 1)

/-- Greedy `*` on a class. -/
def star (p : Char → Bool) : RE := .rep p 0 none

/-- Greedy `+` on a class. -/
def plus (p : Char → Bool) : RE := .rep p 1 none

/-! ## The patterns of the source, transcribed in order -/

/-- Tail shared by the labelled invoice-number patterns:
the source's regex fragment for label separator plus captured token. -/
def invTail : RE :=
  seqs [star isColonSpaceC, .grp (seqs [.cls isAlnumC, .rep isDashAlnumC 3 none])]

/-- Invoice-number pattern 1 of `parse_invoice_number`. -/
def invPat1 : RE :=
  .seq (alts [lt "Invoice", lt "Inv",
              seqs [lt "Invoice", star isSpaceC, lt "#"],
              seqs [lt "Invoice", star isSpaceC, lt "Number"],
              seqs [lt "Invoice", star isSpaceC, lt "No", optC '.']])
       invTail

/-- Invoice-number pattern 2 of `parse_invoice_number`. -/
def invPat2 : RE :=
  .seq (alts [lt "Order",
              seqs [lt "Order", star isSpaceC, lt "#"],
              seqs [lt "Order", star isSpaceC, lt "Number"]])
       invTail

/-- Invoice-number pattern 3 of `parse_invoice_number`. -/
def invPat3 : RE :=
  .seq (alts [lt "Reference", lt "Ref",
              seqs [lt "Ref", star isSpaceC, lt "#"]])
       invTail

/-- Invoice-number pattern 4 of `parse_invoice_number` (generic `#`). -/
def invPat4 : RE :=
  seqs [lt "#", star isSpaceC, .grp (seqs [.cls isAlnumC, .rep isDashAlnumC 5 none])]

/-- The date label alternation of `parse_date`'s Tier A patterns. -/
def dateLabel : RE :=
  alts [seqs [lt "Invoice", star isSpaceC, lt "Date"], lt "Date", lt "Issued"]

/-- Labelled date pattern 1 (numeric day-month-year shape). -/
def datePat1 : RE :=
  seqs [dateLabel, star isColonSpaceC,
        .grp (seqs [.rep Char.isDigit 1 (some 2), .cls isSlashDashC,
                    .rep Char.isDigit 1 (some 2), .cls isSlashDashC,
                    .rep Char.isDigit 2 (some 4)])]

/-- Labelled date pattern 2 (month-name shape). -/
def datePat2 : RE :=
  seqs [dateLabel, star isColonSpaceC,
        .grp (seqs [plus isWordC, plus isSpaceC, .rep Char.isDigit 1 (some 2),
                    optC ',', plus isSpaceC, .rep Char.isDigit 4 (some 4)])]

/-- Labelled date pattern 3 (ISO-like year-first shape). -/
def datePat3 : RE :=
  seqs [dateLabel, star isColonSpaceC,
        .grp (seqs [.rep Char.isDigit 4 (some 4), .cls isSlashDashC,
                    .rep Char.isDigit 1 (some 2), .cls isSlashDashC,
                    .rep Char.isDigit 1 (some 2)])]

/-- Generic (unlabelled) date pattern 1: numeric day-month-year shape. -/
def genPat1 : RE :=
  .grp (seqs [.rep Char.isDigit 1 (some 2), .cls isSlashDashC,
              .rep Char.isDigit 1 (some 2), .cls isSlashDashC,
              .rep Char.isDigit 4 (some 4)])

/-- Generic date pattern 2: ISO-like year-first shape.  Note the source
lists this pattern second, before the month-name shape. -/
def genPat2 : RE :=
  .grp (seqs [.rep Char.isDigit 4 (some 4), .cls isSlashDashC,
              .rep Char.isDigit 1 (some 2), .cls isSlashDashC,
              .rep Char.isDigit 1 (some 2)])

/-- Generic date pattern 3: month-name shape. -/
def genPat3 : RE :=
  .grp (seqs [plus isWordC, plus isSpaceC, .rep Char.isDigit 1 (some 2),
              optC ',', plus isSpaceC, .rep Char.isDigit 4 (some 4)])

/-- The total label alternation of `parse_amount`'s Tier A patterns. -/
def totalLabel : RE :=
  alts [lt "Total",
        seqs [lt "Amount", star isSpaceC, lt "Due"],
        seqs [lt "Grand", star isSpaceC, lt "Total"],
        seqs [lt "Balance", star isSpaceC, lt "Due"],
        seqs [lt "Total", star isSpaceC, lt "Due"]]

/-- Labelled total pattern 1 (optional dollar marker). -/
def totalPat1 : RE :=
  seqs [totalLabel, star isColonSpaceC, optC '$',
        .grp (seqs [plus isDigitCommaC, optC '.', star Char.isDigit])]

/-- Labelled total pattern 2 (`USD` marker). -/
def totalPat2 : RE :=
  seqs [totalLabel, star isColonSpaceC, lt "US", optC 'D', star isSpaceC,
        .grp (seqs [plus isDigitCommaC, optC '.', star Char.isDigit])]

/-- The bare currency pattern of `parse_amount`'s Tier B. -/
def currencyPat : RE :=
  seqs [lt "$", star isSpaceC, .grp (seqs [plus isDigitCommaC, lt ".", .rep Char.isDigit 2 (some 2)])]

/-- The structural-label prefixes skipped by `parse_vendor`
(all matched with `re.match`, i.e. anchored at the start of the line). -/
def skipPats : List RE :=
  [lt "invoice", lt "date",
   seqs [lt "bill", star isSpaceC, lt "to"],
   seqs [lt "ship", star isSpaceC, lt "to"],
   .cls Char.isDigit, lt "page", lt "total"]

/-! ## Python string and number helpers -/

/-- Python `str.strip()` (ASCII whitespace). -/
def pystrip (s : Str) : Str :=
  ((s.dropWhile isSpaceC).reverse.dropWhile isSpaceC).reverse

/-- Python `str.upper()` (ASCII). -/
def upperS (s : Str) : Str := s.map Char.toUpper

/-- Python `str.replace(",", "")`. -/
def stripCommas (s : Str) : Str := s.filter (fun c => c ≠ ',')

/-- Value of a digit string (empty string gives 0). -/
def digitsToNat (s : Str) : Nat := s.foldl (fun a c => 10 * a + (c.toNat - '0'.toNat)) 0

/-- Python `Decimal(s)` restricted to the strings that can reach it here:
after comma-stripping a capture of the amount patterns, `s` is made of
digits and at most one dot.  `Decimal` fails (raising `InvalidOperation`)
on a string without any digit, e.g. the empty string or `"."`. -/
def decOfStr (s : Str) : Option ℚ :=
  let ip := s.takeWhile (fun c => c ≠ '.')
  let fp := (s.dropWhile (fun c => c ≠ '.')).drop 1
  if (∀ c ∈ s, c.isDigit = true ∨ c = '.') ∧ (s.filter (fun c => c = '.')).length ≤ 1
      ∧ s.any Char.isDigit then
    some ((digitsToNat ip : ℚ) + (digitsToNat fp : ℚ) / (10 : ℚ) ^ fp.length)
  else none

/-- First present value of a list of options. -/
def firstSome {α : Type} : List (Option α) → Option α
  | [] => none
  | x :: xs =>
    match x with
    | some a => some a
    | none => firstSome xs

/-- Left-biased choice on options. -/
def orO {α : Type} : Option α → Option α → Option α
  | some a, _ => some a
  | none, b => b

/-! ## The four field extractors -/

/-- `parse_invoice_number`: the four patterns are tried in order and the
first match of the first matching pattern wins; the capture is stripped. -/
def parse_invoice_number (text : Str) : Option Str :=
  (firstSome ([invPat1, invPat2, invPat3, invPat4].map (fun p => searchG p text))).map pystrip

/-- One Tier A candidate of `parse_date`: search for the labelled pattern,
hand the capture to the external date parser `dp` (modelling `dateutil`,
which yields the parsed year and epoch timestamp or fails); a parse failure
is caught and surfaces as `none`. -/
def tryLabeled (dp : Str → Option (Int × Int)) (p : RE) (text : Str) : Option (Str × Int) :=
  match searchG p text with
  | some ds =>
    match dp ds with
    | some yts => some (ds, yts.2)
    | none => none
  | none => none

/-- One Tier B candidate family of `parse_date`: the first 3 `findall`
matches of the shape are examined and the first one whose parsed year lies
in [2020, 2030] is accepted. -/
def tryGeneric (dp : Str → Option (Int × Int)) (p : RE) (text : Str) : Option (Str × Int) :=
  firstSome (((findall p text).take 3).map (fun ds =>
    match dp ds with
    | some yts => if 2020 ≤ yts.1 ∧ yts.1 ≤ 2030 then some (ds, yts.2) else none
    | none => none))

/-- `parse_date`, parameterised by the external date-parsing capability
`dp` (an external collaborator in the source: `dateutil.parser.parse`,
reported through its `.year` and `.timestamp()`). -/
def parse_date (dp : Str → Option (Int × Int)) (text : Str) : Option (Str × Int) :=
  orO (firstSome [tryLabeled dp datePat1 text, tryLabeled dp datePat2 text,
                  tryLabeled dp datePat3 text])
      (firstSome [tryGeneric dp genPat1 text, tryGeneric dp genPat2 text,
                  tryGeneric dp genPat3 text])

/-- One Tier A candidate of `parse_amount`: search for the labelled total
pattern, strip thousands separators from the capture, parse as `Decimal`;
an `InvalidOperation` is caught and surfaces as `none`. -/
def tryTotal (p : RE) (text : Str) : Option (Str × ℚ) :=
  match searchG p text with
  | some cap =>
    match decOfStr (stripCommas cap) with
    | some q => some (cap, q)
    | none => none
  | none => none

/-- The Tier B candidate list of `parse_amount`: every `findall` match of
the bare currency pattern that parses as a decimal, in text order. -/
def tierBamounts (text : Str) : List (Str × ℚ) :=
  (findall currencyPat text).filterMap (fun m => (decOfStr (stripCommas m)).map (fun q => (m, q)))

/-- Stable insertion into a descending-sorted list: an element moves past a
later element only when its value is strictly greater, exactly like Python's
stable `list.sort(key=..., reverse=True)`. -/
def insDesc (x : Str × ℚ) : List (Str × ℚ) → List (Str × ℚ)
  | [] => [x]
  | y :: ys => if x.2 < y.2 then y :: insDesc x ys else x :: y :: ys

/-- Stable descending sort by parsed value, as `amounts.sort(key=lambda x:
x[1], reverse=True)`. -/
def sortDesc : List (Str × ℚ) → List (Str × ℚ)
  | [] => []
  | x :: xs => insDesc x (sortDesc xs)

/-- `parse_amount`: labelled totals first (two patterns), then the largest
bare currency amount (`amounts[0]` after the stable descending sort). -/
def parse_amount (text : Str) : Option (Str × ℚ) :=
  orO (orO (tryTotal totalPat1 text) (tryTotal totalPat2 text))
      (sortDesc (tierBamounts text)).head?

/-- `parse_vendor`: first acceptable line of the first 10 lines. -/
def parse_vendor (text : Str) : Option Str :=
  firstSome (((text.splitOn '\n').take 10).map (fun ln =>
    let l := pystrip ln
    if l = [] ∨ l.length < 3 ∨ 100 < l.length then none
    else if skipPats.any (fun p => (matchHere p l).isSome) then none
    else if (matchHere (RE.cls Char.isUpper) l).isSome ∧ 3 ≤ l.length then some l
    else none))

/-! ## An exact model of IEEE-754 binary64 rounding

The source stores `float(amount)` in the result record
(`extract_invoice_data`, line 281) and later re-reads it through
`Decimal(str(...))` (`compare_with_bill`, line 307).  Both conversions are
modelled exactly on rationals: `floatRound` is correct rounding to a 53-bit
binary significand (round to nearest, ties to even), and `shortestDec` is
the shortest decimal that rounds back to the given double — the value
`Decimal(str(f))` denotes for a Python float `f`.  Exponent-range effects
(overflow, subnormals) do not arise for the magnitudes considered. -/

/-- Round a rational to the nearest integer, ties to even. -/
def rnEven (x : ℚ) : ℤ :=
  let n := ⌊x⌋
  if x - n < 1/2 then n
  else if (1 : ℚ)/2 < x - n then n + 1
  else if n % 2 = 0 then n else n + 1

/-- Fuelled binary logarithm, upward phase (for `1 ≤ q`). -/
def qlog2Up : Nat → ℚ → ℤ
  | 0, _ => 0
  | n + 1, q => if q < 2 then 0 else qlog2Up n (q / 2) + 1

/-- Fuelled binary logarithm, downward phase (for `0 < q < 1`). -/
def qlog2Down : Nat → ℚ → ℤ
  | 0, _ => 0
  | n + 1, q => if 1 ≤ q then 0 else qlog2Down n (q * 2) - 1

/-- Floor of the binary logarithm of a positive rational. -/
def qlog2 (q : ℚ) : ℤ :=
  if 1 ≤ q then qlog2Up q.num.natAbs q else qlog2Down q.den q

/-- Correctly rounded conversion of a rational to a binary64 value
(53-bit significand, round to nearest, ties to even), as a rational. -/
def floatRound (q : ℚ) : ℚ :=
  if q = 0 then 0
  else if 0 < q then (rnEven (q * 2 ^ (52 - qlog2 q)) : ℚ) * 2 ^ (qlog2 q - 52)
  else -((rnEven (-q * 2 ^ (52 - qlog2 (-q))) : ℚ) * 2 ^ (qlog2 (-q) - 52))

/-- Fuelled decimal logarithm, upward phase. -/
def qlog10Up : Nat → ℚ → ℤ
  | 0, _ => 0
  | n + 1, q => if q < 10 then 0 else qlog10Up n (q / 10) + 1

/-- Fuelled decimal logarithm, downward phase. -/
def qlog10Down : Nat → ℚ → ℤ
  | 0, _ => 0
  | n + 1, q => if 1 ≤ q then 0 else qlog10Down n (q * 10) - 1

/-- Floor of the decimal logarithm of a positive rational. -/
def qlog10 (q : ℚ) : ℤ :=
  if 1 ≤ q then qlog10Up q.num.natAbs q else qlog10Down q.den q

/-- Round a positive rational to `k` significant decimal digits. -/
def roundSig (x : ℚ) (k : Nat) : ℚ :=
  (rnEven (x * 10 ^ ((k : ℤ) - 1 - qlog10 x)) : ℚ) * 10 ^ (qlog10 x - (k : ℤ) + 1)

/-- Helper of `shortestDec`: try 1 to 17 significant digits. -/
def shortestDecAux (x : ℚ) : Nat → Nat → ℚ
  | 0, _ => x
  | f + 1, k =>
    if floatRound (roundSig x k) = x then roundSig x k
    else shortestDecAux x f (k + 1)

/-- The value of `Decimal(str(f))` for a binary64 value `f`: the shortest
decimal (by significant digits) that rounds back to `f`. -/
def shortestDec (x : ℚ) : ℚ :=
  if x = 0 then 0
  else if 0 < x then shortestDecAux x 17 1
  else -shortestDecAux (-x) 17 1

/-! ## Extraction coordinator -/

/-- `extract_text`: the two-tier text-acquisition cascade.  The two
underlying capabilities are external collaborators; the structured tier's
output is passed as a value (it is always computed first) and the
image-recognition tier as a thunk, which the cascade forces only when the
structured text is too short.  The returned method is the source's string
tag: `"pdfplumber"`, `"ocr"` or `"none"`. -/
def extract_text (plumberText : Str) (ocrText : Unit → Str) : Str × Str :=
  if 50 ≤ (pystrip plumberText).length then (plumberText, "pdfplumber".toList)
  else
    let t := ocrText ()
    if pystrip t ≠ [] then (t, "ocr".toList)
    else ([], "none".toList)

/-- The result record built by `extract_invoice_data` (the source's result
dict, with its exact field set; `errors` in order of appending). -/
structure InvoiceData where
  file : Str
  extraction_method : Option Str
  invoice_number : Option Str
  date_string : Option Str
  date_timestamp : Option Int
  amount_string : Option Str
  amount_decimal : Option ℚ
  vendor : Option Str
  raw_text_preview : Option Str
  errors : List Str
deriving DecidableEq

/-- `extract_invoice_data`, with the external effects passed as inputs:
whether the path exists, the structured-extraction text, the thunked
image-recognition text, and the date-parsing capability `dp`.
`amount_decimal` holds `float(amount) if amount else None`: the binary64
rounding of the parsed decimal, or `None` when the amount is absent or the
parsed decimal is zero (`Decimal('0')` is falsy in Python). -/
def extract_invoice_data (dp : Str → Option (Int × Int)) (fileExists : Bool)
    (pdf_path : Str) (plumberText : Str) (ocrText : Unit → Str) : InvoiceData :=
  if fileExists = false then
    { file := pdf_path, extraction_method := none, invoice_number := none
      date_string := none, date_timestamp := none, amount_string := none
      amount_decimal := none, vendor := none, raw_text_preview := none
      errors := ["File not found: ".toList ++ pdf_path] }
  else
    let tm := extract_text plumberText ocrText
    let text := tm.1
    let preview := if text = [] then none else some (text.take 500)
    if text = [] then
      { file := pdf_path, extraction_method := some tm.2, invoice_number := none
        date_string := none, date_timestamp := none, amount_string := none
        amount_decimal := none, vendor := none, raw_text_preview := preview
        errors := ["Could not extract text from PDF".toList] }
    else
      let dt := parse_date dp text
      let am := parse_amount text
      { file := pdf_path
        extraction_method := some tm.2
        invoice_number := parse_invoice_number text
        date_string := dt.map (fun x => x.1)
        date_timestamp := dt.map (fun x => x.2)
        amount_string := am.map (fun x => x.1)
        amount_decimal :=
          match am with
          | some sq => if sq.2 = 0 then none else some (floatRound sq.2)
          | none => none
        vendor := parse_vendor text
        raw_text_preview := preview
        errors := [] }

/-! ## Reconciliation engine -/

/-- The field tag of a discrepancy. -/
inductive DField where
  | invoice_number
  | amount
  | date
deriving DecidableEq

/-- The severity tag of a discrepancy. -/
inductive DSeverity where
  | WARNING
  | ERROR
deriving DecidableEq

/-- A discrepancy entry.  The source also carries the two compared values
and a formatted message, which no comparison logic reads back; they are
determined by the inputs and are not modelled. -/
structure Discrepancy where
  field : DField
  severity : DSeverity
deriving DecidableEq

/-- The external bill record, read through `dict.get` (absent keys give
`None`).  `Amount` is a decimal value: `Decimal(str(...))` on it is the
identity, which the embedding applies silently. -/
structure Bill where
  BillNumber : Option Str
  Amount : Option ℚ
  BillDate : Option Int
deriving DecidableEq

/-- The invoice-number block of `compare_with_bill`.  The guard is Python
truthiness of both values: present and non-empty. -/
def invoiceIssues (e : InvoiceData) (b : Bill) : List Discrepancy :=
  match e.invoice_number, b.BillNumber with
  | some pn, some bn =>
    if pn ≠ [] ∧ bn ≠ [] then
      if upperS pn ≠ upperS bn then [⟨.invoice_number, .WARNING⟩] else []
    else []
  | _, _ => []

/-- The amount block of `compare_with_bill`: guard is truthiness (present
and non-zero); the extracted float is re-read through `Decimal(str(...))`
(`shortestDec`), the bill decimal re-reads to itself, and the tolerance is
a strict one-cent bound on the absolute difference. -/
def amountIssues (e : InvoiceData) (b : Bill) : List Discrepancy :=
  match e.amount_decimal, b.Amount with
  | some pa, some ba =>
    if pa ≠ 0 ∧ ba ≠ 0 then
      if (1 : ℚ)/100 < |shortestDec pa - ba| then [⟨.amount, .ERROR⟩] else []
    else []
  | _, _ => []

/-- The date block of `compare_with_bill`: guard is truthiness (present and
non-zero timestamp); mismatch when the difference exceeds one day.  The
source computes `abs(Δ)/86400 > 1` in floats; the division is modelled
exactly, which agrees with the float comparison for all values at stake. -/
def dateIssues (e : InvoiceData) (b : Bill) : List Discrepancy :=
  match e.date_timestamp, b.BillDate with
  | some pt, some bt =>
    if pt ≠ 0 ∧ bt ≠ 0 then
      if 1 < (|pt - bt| : ℚ) / 86400 then [⟨.date, .WARNING⟩] else []
    else []
  | _, _ => []

/-- `compare_with_bill`: the three field comparisons append their issues in
the source's fixed order. -/
def compare_with_bill (e : InvoiceData) (b : Bill) : List Discrepancy :=
  invoiceIssues e b ++ amountIssues e b ++ dateIssues e b

/-! ## Concrete instances used by the theorems -/

/-- A date-parsing capability behaving like `dateutil` on the two date
strings exercised below, failing elsewhere. -/
def dparse0 (s : Str) : Option (Int × Int) :=
  if s = "2024-03-05".toList then some (2024, 1709596800)
  else if s = "March 7, 2024".toList then some (2024, 1709769600)
  else none

/-- A date-parsing capability that fails on every input. -/
def noDate : Str → Option (Int × Int) := fun _ => none

/-- An image-recognition tier producing no text. -/
def ocr0 : Unit → Str := fun _ => []

/-- A document text whose labelled total is zero dollars. -/
def docZeroTotal : Str :=
  "Total: $0.00 settled with thanks for your prompt payment".toList

/-- A document text whose labelled total is ten cents. -/
def docTenCents : Str :=
  "Total: $0.10 settled with thanks for your prompt payment".toList

/-- The spec's amount-priority test text. -/
def tSubtotal : Str := "Subtotal: $80.00 ... Total: $100.00".toList

/-- The spec's invoice-number-priority test text. -/
def tInvNum : Str := "Invoice #INV-1234\n#XYZZY99".toList

/-- A text containing a month-name date and an ISO-shaped date, with no
date label and no numeric-slash date. -/
def tSpring : Str := "Paid March 7, 2024 and 2024-03-05".toList

/-- A text on which the first labelled-total pattern matches but its
capture fails decimal parsing, followed by a bare currency amount. -/
def tComma : Str := "Total: ,,, then $20.00 paid".toList

/-- A text with two bare currency amounts tied at the maximum value. -/
def tTie : Str := "$1,234.00 a $1234.00 a $5.00".toList

/-- A structured-tier text of length at least 50. -/
def plumb50 : Str := "This structured layer yields plenty of characters for the cascade".toList

/-- An extraction result holding the amount 100.00 (its binary64 value is
exactly 100) and no other extracted field. -/
def e100 : InvoiceData :=
  { file := "x".toList, extraction_method := some ("pdfplumber".toList)
    invoice_number := none, date_string := none, date_timestamp := none
    amount_string := some ("100.00".toList), amount_decimal := some 100
    vendor := none, raw_text_preview := none, errors := [] }

/-- The first element of a list attaining the maximum value — the element
`amounts[0]` denotes after Python's stable descending sort. -/
def firstMax : List (Str × ℚ) → Option (Str × ℚ)
  | [] => none
  | x :: xs =>
    match firstMax xs with
    | none => some x
    | some m => if x.2 < m.2 then some m else some x

set_option maxRecDepth 6000

/-! ## Supporting lemmas -/

theorem firstSome_eq_none {α : Type} (l : List (Option α)) (h : ∀ x ∈ l, x = none) :
    firstSome l = none := by
  induction l with
  | nil => rfl
  | cons x xs ih =>
    have hx := h x (by simp)
    subst hx
    exact ih (fun y hy => h y (by simp [hy]))

theorem extract_amount_some (dp : Str → Option (Int × Int)) (path plumber : Str)
    (ocrT : Unit → Str) (s : Str) (q : ℚ)
    (ht : (extract_text plumber ocrT).1 ≠ [])
    (hp : parse_amount (extract_text plumber ocrT).1 = some (s, q)) (hq : q ≠ 0) :
    (extract_invoice_data dp true path plumber ocrT).amount_string = some s ∧
      (extract_invoice_data dp true path plumber ocrT).amount_decimal
        = some (floatRound q) := by
  have hnb : ¬(true = false) := by simp
  constructor
  · simp only [extract_invoice_data, if_neg hnb, if_neg ht, hp, Option.map_some']
  · simp only [extract_invoice_data, if_neg hnb, if_neg ht, hp, if_neg hq]

theorem extract_amount_zero (dp : Str → Option (Int × Int)) (path plumber : Str)
    (ocrT : Unit → Str) (s : Str)
    (ht : (extract_text plumber ocrT).1 ≠ [])
    (hp : parse_amount (extract_text plumber ocrT).1 = some (s, 0)) :
    (extract_invoice_data dp true path plumber ocrT).amount_string = some s ∧
      (extract_invoice_data dp true path plumber ocrT).amount_decimal = none := by
  have hnb : ¬(true = false) := by simp
  constructor
  · simp only [extract_invoice_data, if_neg hnb, if_neg ht, hp, Option.map_some']
  · simp only [extract_invoice_data, if_neg hnb, if_neg ht, hp]
    simp

theorem firstMax_ne_none (x : Str × ℚ) (xs : List (Str × ℚ)) : firstMax (x :: xs) ≠ none := by
  unfold firstMax
  cases firstMax xs with
  | none => simp
  | some m =>
    show (if x.2 < m.2 then some m else some x) ≠ none
    split_ifs <;> simp

theorem sortDesc_head (l : List (Str × ℚ)) : (sortDesc l).head? = firstMax l := by
  induction l with
  | nil => rfl
  | cons x xs ih =>
    unfold sortDesc firstMax
    rw [← ih]
    cases hs : sortDesc xs with
    | nil => simp [insDesc]
    | cons y ys =>
      unfold insDesc
      split_ifs with h <;> simp [h]

theorem firstMax_spec (l : List (Str × ℚ)) (m : Str × ℚ) (h : firstMax l = some m) :
    ∃ l1 l2, l = l1 ++ m :: l2 ∧ (∀ z ∈ l1, z.2 < m.2) ∧ (∀ z ∈ l, z.2 ≤ m.2) := by
  induction l generalizing m with
  | nil => cases h
  | cons x xs ih =>
    unfold firstMax at h
    cases hm : firstMax xs with
    | none =>
      simp only [hm] at h
      obtain rfl : x = m := Option.some.inj h
      cases xs with
      | nil => exact ⟨[], [], rfl, by simp, by simp⟩
      | cons y ys => exact absurd hm (firstMax_ne_none y ys)
    | some p =>
      simp only [hm] at h
      rcases ih p hm with ⟨l1, l2, hsp, hlt, hle⟩
      by_cases hx : x.2 < p.2
      · rw [if_pos hx] at h
        obtain rfl : p = m := Option.some.inj h
        refine ⟨x :: l1, l2, by rw [hsp]; rfl, ?_, ?_⟩
        · intro z hz
          rcases List.mem_cons.mp hz with rfl | hz2
          · exact hx
          · exact hlt z hz2
        · intro z hz
          rcases List.mem_cons.mp hz with rfl | hz2
          · exact le_of_lt hx
          · exact hle z hz2
      · rw [if_neg hx] at h
        obtain rfl : x = m := Option.some.inj h
        refine ⟨[], xs, rfl, by simp, ?_⟩
        intro z hz
        rcases List.mem_cons.mp hz with rfl | hz2
        · exact le_refl _
        · exact le_trans (hle z hz2) (not_lt.mp hx)

/-! ## Claim theorems -/

/-- C1: the claim states that for "Subtotal: $80.00 ... Total: $100.00" the
extracted amount is 100.00.  The code disagrees: the labelled-total pattern
has no word boundary, so `re.search` finds the "total" inside "Subtotal"
first (the leftmost match) and returns 80.00.  This theorem evaluates the
extractor at the claim's own input. -/
theorem c1_subtotal_shadows_total :
    parse_amount tSubtotal = some ("80.00".toList, (80 : ℚ)) ∧ (80 : ℚ) ≠ 100 := by
  with_unfolding_all decide

/-- C2: the claim states `amount_string` and `amount_decimal` are present
together even when the parsed amount is zero.  The code stores
`float(amount) if amount else None`, and `Decimal('0')` is falsy, so a
zero-dollar total leaves `amount_string` present and `amount_decimal`
absent.  Evaluated at a document whose total is `$0.00`; the document text
is long enough for the structured tier, so the pipeline runs in full. -/
theorem c2_zero_amount_breaks_pairing :
    (extract_invoice_data noDate true ("doc.pdf".toList) docZeroTotal ocr0).amount_string
        = some ("0.00".toList) ∧
      (extract_invoice_data noDate true ("doc.pdf".toList) docZeroTotal ocr0).amount_decimal
        = none :=
  extract_amount_zero noDate ("doc.pdf".toList) docZeroTotal ocr0 ("0.00".toList)
    (by decide) (by with_unfolding_all decide)

/-- C5: the two-tier acquisition cascade.  Method tags follow the source:
`"pdfplumber"` is the structured tier, `"ocr"` the image-recognition tier,
`"none"` the empty terminal case.  When the structured text's trimmed
length reaches 50 the result is that text with the structured tag and the
image-recognition thunk is never forced (the result is independent of it);
otherwise non-whitespace recognized text is returned with the recognition
tag; otherwise the result is empty content with the none tag. -/
theorem c5_text_acquisition_cascade (plumber : Str) (o1 o2 : Unit → Str) :
    (50 ≤ (pystrip plumber).length →
      extract_text plumber o1 = (plumber, "pdfplumber".toList) ∧
        extract_text plumber o1 = extract_text plumber o2) ∧
    ((pystrip plumber).length < 50 → pystrip (o1 ()) ≠ [] →
      extract_text plumber o1 = (o1 (), "ocr".toList)) ∧
    ((pystrip plumber).length < 50 → pystrip (o1 ()) = [] →
      extract_text plumber o1 = ([], "none".toList)) := by
  unfold extract_text
  refine ⟨fun h => ?_, fun h1 h2 => ?_, fun h1 h2 => ?_⟩
  · rw [if_pos h, if_pos h]; exact ⟨rfl, rfl⟩
  · rw [if_neg (by omega), if_pos h2]
  · rw [if_neg (by omega), if_neg (by simp [h2])]

/-- C5 witness: the cascade evaluated on a long structured text and two
different recognition thunks, and on a short structured text with empty
and non-empty recognition output. -/
theorem c5_text_acquisition_cascade_witness :
    (extract_text plumb50 ocr0 = (plumb50, "pdfplumber".toList) ∧
      extract_text plumb50 ocr0 = extract_text plumb50 (fun _ => "zz".toList)) ∧
    extract_text ("short".toList) (fun _ => "zz".toList) = ("zz".toList, "ocr".toList) ∧
    extract_text ("short".toList) ocr0 = ([], "none".toList) :=
  ⟨(c5_text_acquisition_cascade plumb50 ocr0 (fun _ => "zz".toList)).1 (by decide),
   (c5_text_acquisition_cascade ("short".toList) (fun _ => "zz".toList) ocr0).2.1
     (by decide) (by decide),
   (c5_text_acquisition_cascade ("short".toList) ocr0 (fun _ => "zz".toList)).2.2
     (by decide) (by decide)⟩

/-- C6: the claim states that on a text containing "Invoice #INV-1234" and
"#XYZZY99" the extractor returns INV-1234.  The code disagrees: in the
first pattern the alternative `Inv` is tried after `Invoice` fails to be
followed by a token (the `#` is not in the token class), and — matching
case-insensitively — it captures `oice`, the rest of the word "Invoice".
This theorem evaluates the extractor at the claim's own input. -/
theorem c6_invoice_number_prefix_capture :
    parse_invoice_number tInvNum = some ("oice".toList) ∧
      some ("oice".toList) ≠ some ("INV-1234".toList) := by
  decide

/-- C8: the strict one-cent tolerance at the boundary: extracted 100.00
(whose binary64 value is exactly 100) against a bill amount of 100.01
yields no discrepancy, against 100.02 exactly one amount discrepancy of
severity ERROR. -/
theorem c8_amount_tolerance_boundary :
    e100.amount_decimal = some 100 ∧
      compare_with_bill e100 ⟨none, some ((10001 : ℚ)/100), none⟩ = [] ∧
      compare_with_bill e100 ⟨none, some ((10002 : ℚ)/100), none⟩
        = [⟨DField.amount, DSeverity.ERROR⟩] := by
  with_unfolding_all decide

/-- C3 counterexample: on a document whose labelled total is `$0.10` the
matched digit string parses exactly to 1/10, but the stored `amount_decimal`
is the binary64 value `float(Decimal('0.10'))`, which differs from 1/10 —
binary-float rounding is applied, against the claim. -/
theorem c3_exact_decimal_counterexample :
    decOfStr (stripCommas ("0.10".toList)) = some ((1 : ℚ)/10) ∧
      (extract_invoice_data noDate true ("doc.pdf".toList) docTenCents ocr0).amount_string
        = some ("0.10".toList) ∧
      (extract_invoice_data noDate true ("doc.pdf".toList) docTenCents ocr0).amount_decimal
        = some (floatRound ((1 : ℚ)/10)) ∧
      floatRound ((1 : ℚ)/10) ≠ (1 : ℚ)/10 :=
  ⟨by with_unfolding_all decide,
   (extract_amount_some noDate ("doc.pdf".toList) docTenCents ocr0 ("0.10".toList)
      ((1 : ℚ)/10) (by decide) (by with_unfolding_all decide)
      (by with_unfolding_all decide)).1,
   (extract_amount_some noDate ("doc.pdf".toList) docTenCents ocr0 ("0.10".toList)
      ((1 : ℚ)/10) (by decide) (by with_unfolding_all decide)
      (by with_unfolding_all decide)).2,
   by with_unfolding_all decide⟩

/-- C3 (amended): for every document whose amount extraction succeeds with
a non-zero value, the stored `amount_decimal` is the IEEE-754 binary64
rounding of the exact decimal parse of the matched digit string — not, in
general, the exact decimal value itself. -/
theorem c3_amount_value_is_binary64 (dp : Str → Option (Int × Int)) (path plumber : Str)
    (ocrT : Unit → Str) (s : Str) (q : ℚ)
    (ht : (extract_text plumber ocrT).1 ≠ [])
    (hp : parse_amount (extract_text plumber ocrT).1 = some (s, q)) (hq : q ≠ 0) :
    (extract_invoice_data dp true path plumber ocrT).amount_string = some s ∧
      (extract_invoice_data dp true path plumber ocrT).amount_decimal
        = some (floatRound q) :=
  extract_amount_some dp path plumber ocrT s q ht hp hq

/-- C3 witness: the amended statement applied to the ten-cent document. -/
theorem c3_amount_value_is_binary64_witness :
    (extract_invoice_data noDate true ("doc.pdf".toList) docTenCents ocr0).amount_string
        = some ("0.10".toList) ∧
      (extract_invoice_data noDate true ("doc.pdf".toList) docTenCents ocr0).amount_decimal
        = some (floatRound ((1 : ℚ)/10)) :=
  c3_amount_value_is_binary64 noDate ("doc.pdf".toList) docTenCents ocr0
    ("0.10".toList) ((1 : ℚ)/10)
    (by decide) (by with_unfolding_all decide) (by with_unfolding_all decide)

/-- C7 counterexample: a text containing a valid month-name date and a
valid ISO-shaped date (no labelled date, no numeric-slash date) yields the
ISO-shaped date, not the month-name date the claim requires: the source
lists the ISO shape second and the month-name shape third in Tier B. -/
theorem c7_tierB_order_counterexample :
    parse_date dparse0 tSpring = some ("2024-03-05".toList, 1709596800) ∧
      firstSome [tryLabeled dparse0 datePat1 tSpring, tryLabeled dparse0 datePat2 tSpring,
        tryLabeled dparse0 datePat3 tSpring] = none ∧
      findall genPat1 tSpring = [] ∧
      findall genPat3 tSpring = ["March 7, 2024".toList] ∧
      dparse0 ("March 7, 2024".toList) = some (2024, 1709769600) ∧
      "2024-03-05".toList ≠ "March 7, 2024".toList := by
  decide

/-- C7 (amended): when Tier A finds nothing, Tier B examines the shape
families in the source's order — numeric day-month-year first, then the
ISO-like year-first shape, then the month-name shape — so once the numeric
family yields nothing, the result is the ISO family's answer, falling back
to the month-name family. -/
theorem c7_tierB_iso_before_month_name (dp : Str → Option (Int × Int)) (text : Str)
    (hA : firstSome [tryLabeled dp datePat1 text, tryLabeled dp datePat2 text,
      tryLabeled dp datePat3 text] = none)
    (h1 : tryGeneric dp genPat1 text = none) :
    parse_date dp text
      = orO (tryGeneric dp genPat2 text) (tryGeneric dp genPat3 text) := by
  unfold parse_date
  rw [hA]
  cases h2 : tryGeneric dp genPat2 text with
  | some v => simp [orO, firstSome, h1, h2]
  | none =>
    cases h3 : tryGeneric dp genPat3 text with
    | some v => simp [orO, firstSome, h1, h2, h3]
    | none => simp [orO, firstSome, h1, h2, h3]

/-- C7 witness: the amended statement applied to the two-date text. -/
theorem c7_tierB_iso_before_month_name_witness :
    parse_date dparse0 tSpring
      = orO (tryGeneric dparse0 genPat2 tSpring) (tryGeneric dparse0 genPat3 tSpring) :=
  c7_tierB_iso_before_month_name dparse0 tSpring (by decide) (by decide)

/-- C9: failure inside an extractor is caught per candidate and never
escapes.  First, with a date parser failing on every input, `parse_date`
returns "not found" on every text rather than failing.  Second and third,
when the first candidate of `parse_date` or of `parse_amount` yields
nothing — no match, or a match whose internal parse fails — the extractor
moves to its remaining candidate patterns, whose combined result it
returns. -/
theorem c9_failure_caught_per_candidate :
    (∀ text : Str, parse_date noDate text = none) ∧
      (∀ (dp : Str → Option (Int × Int)) (text : Str),
        tryLabeled dp datePat1 text = none →
        parse_date dp text
          = orO (firstSome [tryLabeled dp datePat2 text, tryLabeled dp datePat3 text])
              (firstSome [tryGeneric dp genPat1 text, tryGeneric dp genPat2 text,
                tryGeneric dp genPat3 text])) ∧
      (∀ text : Str, tryTotal totalPat1 text = none →
        parse_amount text
          = orO (tryTotal totalPat2 text) (sortDesc (tierBamounts text)).head?) := by
  refine ⟨?_, ?_, ?_⟩
  · intro text
    have hl : ∀ p, tryLabeled noDate p text = none := by
      intro p
      unfold tryLabeled
      cases searchG p text <;> rfl
    have hg : ∀ p, tryGeneric noDate p text = none := by
      intro p
      unfold tryGeneric
      apply firstSome_eq_none
      intro x hx
      rcases List.mem_map.mp hx with ⟨ds, _, rfl⟩
      rfl
    unfold parse_date
    rw [hl, hl, hl, hg, hg, hg]
    rfl
  · intro dp text h
    unfold parse_date
    rw [h]
    rfl
  · intro text h
    unfold parse_amount
    rw [h]
    rfl

/-- C9 witness: a date-less text with the failing parser; a text whose
first labelled-total match captures only commas (so its `Decimal` parse
fails) and whose final amount nevertheless comes from the remaining
candidates; and the date fallthrough at the same text. -/
theorem c9_failure_caught_per_candidate_witness :
    parse_date noDate tSpring = none ∧
      parse_date dparse0 tComma
        = orO (firstSome [tryLabeled dparse0 datePat2 tComma, tryLabeled dparse0 datePat3 tComma])
            (firstSome [tryGeneric dparse0 genPat1 tComma, tryGeneric dparse0 genPat2 tComma,
              tryGeneric dparse0 genPat3 tComma]) ∧
      parse_amount tComma
        = orO (tryTotal totalPat2 tComma) (sortDesc (tierBamounts tComma)).head? :=
  ⟨c9_failure_caught_per_candidate.1 tSpring,
   c9_failure_caught_per_candidate.2.1 dparse0 tComma (by decide),
   c9_failure_caught_per_candidate.2.2 tComma (by with_unfolding_all decide)⟩

/-- C10: in Tier B, the returned pair is an element of the candidate list
(in text order) whose value is the maximum, and every candidate strictly
before it has a strictly smaller value — so among candidates tied at the
maximum, the earliest in the text is returned: Python's stable descending
sort preserves the original order of equal values. -/
theorem c10_tie_broken_by_text_order (text : Str) (s : Str) (v : ℚ)
    (hA : orO (tryTotal totalPat1 text) (tryTotal totalPat2 text) = none)
    (hp : parse_amount text = some (s, v)) :
    ∃ l1 l2, tierBamounts text = l1 ++ (s, v) :: l2 ∧
      (∀ z ∈ l1, z.2 < v) ∧ (∀ z ∈ tierBamounts text, z.2 ≤ v) := by
  have hh : (sortDesc (tierBamounts text)).head? = some (s, v) := by
    unfold parse_amount at hp
    rw [hA] at hp
    exact hp
  rw [sortDesc_head] at hh
  exact firstMax_spec (tierBamounts text) (s, v) hh

/-- C10 witness: two candidates tied at 1234; the extractor returns the
literal of the earlier one, `1,234.00`. -/
theorem c10_tie_broken_by_text_order_witness :
    ∃ l1 l2, tierBamounts tTie = l1 ++ ("1,234.00".toList, (1234 : ℚ)) :: l2 ∧
      (∀ z ∈ l1, z.2 < (1234 : ℚ)) ∧ (∀ z ∈ tierBamounts tTie, z.2 ≤ (1234 : ℚ)) :=
  c10_tie_broken_by_text_order tTie ("1,234.00".toList) 1234
    (by with_unfolding_all decide) (by with_unfolding_all decide)


/-! ## Reconciliation block lemmas (for C4) -/

theorem invoiceIssues_field (e : InvoiceData) (b : Bill) :
    ∀ d ∈ invoiceIssues e b, d.field = DField.invoice_number := by
  unfold invoiceIssues
  cases e.invoice_number <;> cases b.BillNumber <;> simp
  rintro d - - - rfl
  rfl

theorem amountIssues_field (e : InvoiceData) (b : Bill) :
    ∀ d ∈ amountIssues e b, d.field = DField.amount := by
  unfold amountIssues
  cases e.amount_decimal <;> cases b.Amount <;> simp
  rintro d - - - rfl
  rfl

theorem dateIssues_field (e : InvoiceData) (b : Bill) :
    ∀ d ∈ dateIssues e b, d.field = DField.date := by
  unfold dateIssues
  cases e.date_timestamp <;> cases b.BillDate <;> simp
  rintro d - - - rfl
  rfl

theorem invoiceIssues_mem_iff (e : InvoiceData) (b : Bill) :
    (∃ d ∈ invoiceIssues e b, d.field = DField.invoice_number) ↔
      ∃ pn bn, e.invoice_number = some pn ∧ b.BillNumber = some bn ∧
        pn ≠ [] ∧ bn ≠ [] ∧ upperS pn ≠ upperS bn := by
  unfold invoiceIssues
  cases hin : e.invoice_number <;> cases hbn : b.BillNumber <;> simp
  constructor
  · rintro ⟨d, ⟨⟨h1, h2⟩, h3, rfl⟩, -⟩
    exact ⟨h1, h2, h3⟩
  · rintro ⟨h1, h2, h3⟩
    exact ⟨_, ⟨⟨h1, h2⟩, h3, rfl⟩, rfl⟩

theorem amountIssues_mem_iff (e : InvoiceData) (b : Bill) :
    (∃ d ∈ amountIssues e b, d.field = DField.amount) ↔
      ∃ pa ba, e.amount_decimal = some pa ∧ b.Amount = some ba ∧
        pa ≠ 0 ∧ ba ≠ 0 ∧ (1 : ℚ)/100 < |shortestDec pa - ba| := by
  unfold amountIssues
  cases hpa : e.amount_decimal <;> cases hba : b.Amount <;> simp
  constructor
  · rintro ⟨d, ⟨⟨h1, h2⟩, h3, rfl⟩, -⟩
    exact ⟨h1, h2, h3⟩
  · rintro ⟨h1, h2, h3⟩
    exact ⟨_, ⟨⟨h1, h2⟩, h3, rfl⟩, rfl⟩

theorem dateIssues_mem_iff (e : InvoiceData) (b : Bill) :
    (∃ d ∈ dateIssues e b, d.field = DField.date) ↔
      ∃ pt bt, e.date_timestamp = some pt ∧ b.BillDate = some bt ∧
        pt ≠ 0 ∧ bt ≠ 0 ∧ 1 < (|pt - bt| : ℚ) / 86400 := by
  unfold dateIssues
  cases hpt : e.date_timestamp <;> cases hbt : b.BillDate <;> simp
  constructor
  · rintro ⟨d, ⟨⟨h1, h2⟩, h3, rfl⟩, -⟩
    exact ⟨h1, h2, h3⟩
  · rintro ⟨h1, h2, h3⟩
    exact ⟨_, ⟨⟨h1, h2⟩, h3, rfl⟩, rfl⟩

/-- C4 counterexample: both sides hold a present amount (extracted 100,
bill record 0) whose difference far exceeds the tolerance, yet the engine
emits no discrepancy: the guard `extracted.get(...) and bill.get(...)` is
Python truthiness, and a present zero is falsy, so the comparison is
skipped — against the claim that comparison is attempted exactly when both
sides have a present value. -/
theorem c4_zero_amount_skipped_counterexample :
    compare_with_bill e100 ⟨none, some 0, none⟩ = [] ∧
      e100.amount_decimal = some 100 ∧
      (1 : ℚ)/100 < |shortestDec 100 - 0| := by
  with_unfolding_all decide

/-- C4 (amended): the engine attempts a field comparison exactly when both
sides hold a present and truthy value — non-empty string, non-zero amount,
non-zero timestamp; a field absent on either side, or present but zero or
empty, is silently skipped with no discrepancy and no error, and the engine
is total, so a missing extracted field never makes it fail. -/
theorem c4_comparison_iff_truthy (e : InvoiceData) (b : Bill) :
    ((∃ d ∈ compare_with_bill e b, d.field = DField.invoice_number) ↔
      ∃ pn bn, e.invoice_number = some pn ∧ b.BillNumber = some bn ∧
        pn ≠ [] ∧ bn ≠ [] ∧ upperS pn ≠ upperS bn) ∧
    ((∃ d ∈ compare_with_bill e b, d.field = DField.amount) ↔
      ∃ pa ba, e.amount_decimal = some pa ∧ b.Amount = some ba ∧
        pa ≠ 0 ∧ ba ≠ 0 ∧ (1 : ℚ)/100 < |shortestDec pa - ba|) ∧
    ((∃ d ∈ compare_with_bill e b, d.field = DField.date) ↔
      ∃ pt bt, e.date_timestamp = some pt ∧ b.BillDate = some bt ∧
        pt ≠ 0 ∧ bt ≠ 0 ∧ 1 < (|pt - bt| : ℚ) / 86400) := by
  have hI := invoiceIssues_field e b
  have hA := amountIssues_field e b
  have hD := dateIssues_field e b
  refine ⟨?_, ?_, ?_⟩
  · rw [← invoiceIssues_mem_iff]
    simp only [compare_with_bill, List.mem_append]
    constructor
    · rintro ⟨d, ((hd | hd) | hd), hf⟩
      · exact ⟨d, hd, hf⟩
      · simp [hA d hd] at hf
      · simp [hD d hd] at hf
    · rintro ⟨d, hd, hf⟩
      exact ⟨d, Or.inl (Or.inl hd), hf⟩
  · rw [← amountIssues_mem_iff]
    simp only [compare_with_bill, List.mem_append]
    constructor
    · rintro ⟨d, ((hd | hd) | hd), hf⟩
      · simp [hI d hd] at hf
      · exact ⟨d, hd, hf⟩
      · simp [hD d hd] at hf
    · rintro ⟨d, hd, hf⟩
      exact ⟨d, Or.inl (Or.inr hd), hf⟩
  · rw [← dateIssues_mem_iff]
    simp only [compare_with_bill, List.mem_append]
    constructor
    · rintro ⟨d, ((hd | hd) | hd), hf⟩
      · simp [hI d hd] at hf
      · simp [hA d hd] at hf
      · exact ⟨d, hd, hf⟩
    · rintro ⟨d, hd, hf⟩
      exact ⟨d, Or.inr hd, hf⟩

/-- C4 witness: with both amounts present, truthy and 50 dollars apart,
a discrepancy for the amount field is emitted. -/
theorem c4_comparison_iff_truthy_witness :
    ∃ d ∈ compare_with_bill e100 ⟨none, some 50, none⟩, d.field = DField.amount :=
  (c4_comparison_iff_truthy e100 ⟨none, some 50, none⟩).2.1.mpr
    ⟨100, 50, rfl, rfl, by norm_num, by norm_num, by with_unfolding_all decide⟩

end VerifyPdf
